import Mathlib

/-!
# Shallow embedding of the simple-expense-log derived-analytics core

Pure computations of the personal finance tracker are embedded over ℚ
(JS numbers carry the source's exact decimal constants here; every claim
under test is an exact arithmetic identity of the formulas, so ℚ is the
faithful carrier). Calendar dates appear in two shapes in the source:

* `"YYYY-MM-DD"` strings compared lexicographically, or `Date` values
  compared by timestamp — for this fixed-width format both coincide with
  chronological order, so they are embedded as year/month/day triples
  with lexicographic comparison, and `date.substring(0, 7)` becomes the
  (year, month) projection;
* whole-day differences (`(a.getTime() - b.getTime()) / 86400000` on
  midnight-UTC dates) used by the trend projector — embedded as ℤ day
  indices, on which the string order and the day difference agree.

Record ids (`crypto.randomUUID()` in the source) are embedded as ℕ, with
fresh identifiers and the current date/timestamp passed in as parameters.
-/

namespace ExpenseLog

/-! ## Currency Conversion Unit (`CurrencyProvider`) -/

/-- The closed currency set of the app: base currency NTD plus USD and CAD. -/
inductive Currency
  | NTD
  | USD
  | CAD
deriving DecidableEq, Repr

/-- `EXCHANGE_RATES` table (NTD as base): NTD 1, USD 0.031, CAD 0.043. -/
def EXCHANGE_RATES : Currency → ℚ
  | .NTD => 1
  | .USD => 31 / 1000
  | .CAD => 43 / 1000

/-- `TO_NTD_RATES` table: NTD 1, USD 32.26, CAD 23.26. -/
def TO_NTD_RATES : Currency → ℚ
  | .NTD => 1
  | .USD => 3226 / 100
  | .CAD => 2326 / 100

/-- `convertToNTD(amount, fromCurrency) = amount * TO_NTD_RATES[fromCurrency]`. -/
def convertToNTD (amount : ℚ) (fromCurrency : Currency) : ℚ :=
  amount * TO_NTD_RATES fromCurrency

/-- `convertFromNTD(amountInNTD, toCurrency) = amountInNTD * EXCHANGE_RATES[toCurrency]`. -/
def convertFromNTD (amountInNTD : ℚ) (toCurrency : Currency) : ℚ :=
  amountInNTD * EXCHANGE_RATES toCurrency

/-! ## Calendar dates -/

/-- An ISO `"YYYY-MM-DD"` calendar day as a year/month/day triple. -/
structure Date where
  year : ℕ
  month : ℕ
  day : ℕ
deriving DecidableEq, Repr

/-- Strict chronological order of days: the source's `new Date(a) < new Date(b)`
and the lexicographic order of the ISO strings. -/
def Date.beforeDay (a b : Date) : Bool :=
  a.year < b.year ||
    (a.year = b.year && (a.month < b.month || (a.month = b.month && a.day < b.day)))

/-- `date.substring(0, 7)`: the `"YYYY-MM"` month key of a date, as the
(year, month) pair. -/
def monthOf (d : Date) : ℕ × ℕ := (d.year, d.month)

/-- Order of `"YYYY-MM"` month keys (`localeCompare` on the fixed-width
strings is their lexicographic order). -/
def monthLE (a b : ℕ × ℕ) : Bool :=
  a.1 < b.1 || (a.1 = b.1 && a.2 ≤ b.2)

/-! ## Fixed expenses (`types/fixedExpense.ts`, `MonthlySummary.tsx`) -/

/-- `Frequency` of a recurring fixed expense. -/
inductive Frequency
  | weekly
  | monthly
  | quarterly
  | yearly
deriving DecidableEq, Repr

/-- `FixedExpense` record (creation timestamp dropped; amounts in NTD). -/
structure FixedExpense where
  id : ℕ
  description : String
  amount : ℚ
  frequency : Frequency
  isActive : Bool
deriving DecidableEq, Repr

/-- `getMonthlyEquivalent(amount, frequency)`: weekly ×4.33, monthly unchanged,
quarterly ÷3, yearly ÷12. -/
def getMonthlyEquivalent (amount : ℚ) (frequency : Frequency) : ℚ :=
  match frequency with
  | .weekly => amount * (433 / 100)
  | .monthly => amount
  | .quarterly => amount / 3
  | .yearly => amount / 12

/-- `MonthlySummary.fixedExpensesMonthly`: active fixed expenses reduced to the
sum of their monthly equivalents (the source's `filter(isActive).reduce(+, 0)`). -/
def fixedExpensesMonthly (fixedExpenses : List FixedExpense) : ℚ :=
  (fixedExpenses.filter (fun exp => exp.isActive)).foldl
    (fun sum exp => sum + getMonthlyEquivalent exp.amount exp.frequency) 0

/-! ## Hierarchical time filter (`ExpenseTracker.tsx` `isDateInPeriod`) -/

/-- A `TimePeriod` restricted to its inclusive day bounds (the remaining
fields — type/ordinals/label — never influence the filter). Bounds are ℤ day
indices. -/
structure TimePeriod where
  startDate : ℤ
  endDate : ℤ
deriving DecidableEq, Repr

/-- `isDateInPeriod(dateStr, period)`: `true` when no period is selected,
otherwise `period.startDate <= date && date <= period.endDate`. -/
def isDateInPeriod (date : ℤ) (period : Option TimePeriod) : Bool :=
  match period with
  | none => true
  | some p => decide (p.startDate ≤ date) && decide (date ≤ p.endDate)

/-! ## Period-filtered totals (`ExpenseTracker.tsx`) -/

/-- A dated amount record as the tracker totals and the trend chart consume it
(an `Expense` or `Income` reduced to the fields those computations read); the
date is an ℤ day index. -/
structure DatedAmount where
  date : ℤ
  amount : ℚ
deriving DecidableEq, Repr

/-- `totalExpenses`: sum of the amounts of the period-filtered expenses. -/
def totalExpenses (expenses : List DatedAmount) (selectedPeriod : Option TimePeriod) : ℚ :=
  (expenses.filter (fun exp => isDateInPeriod exp.date selectedPeriod)).foldl
    (fun sum exp => sum + exp.amount) 0

/-- `totalIncomes`: sum of the amounts of the period-filtered incomes. -/
def totalIncomes (incomes : List DatedAmount) (selectedPeriod : Option TimePeriod) : ℚ :=
  (incomes.filter (fun inc => isDateInPeriod inc.date selectedPeriod)).foldl
    (fun sum inc => sum + inc.amount) 0

/-- `netCashFlow = totalIncomes - totalExpenses` (no fixed-expense term). -/
def netCashFlow (expenses incomes : List DatedAmount)
    (selectedPeriod : Option TimePeriod) : ℚ :=
  totalIncomes incomes selectedPeriod - totalExpenses expenses selectedPeriod

/-! ## Monthly summary (`MonthlySummary.tsx` `monthlyData`)

Predictions are modelled in their default state (`showPredictions = false`),
in which the output is exactly the sorted list of actual-month buckets. -/

/-- A record as the monthly summary reads it: calendar date plus amount. -/
structure DatedRecord where
  date : Date
  amount : ℚ
deriving DecidableEq, Repr

/-- One bucket of the monthly summary (the source's `MonthData` without its
display-label and prediction-flag fields; `savingsBalance = none` is the
source's `null`). -/
structure MonthData where
  month : ℕ × ℕ
  totalIncome : ℚ
  totalExpenses : ℚ
  fixedExpensesMonthly : ℚ
  savingsBalance : Option ℚ
  netFlow : ℚ
  isCurrentMonth : Bool
deriving DecidableEq, Repr

/-- The months appearing in any of the three record lists (the source inserts
expense, then income, then saving months into a `Set`; `dedup` keeps one copy
per month — iteration order is immaterial because the buckets are re-sorted
before output). -/
def allMonths (expenses incomes savings : List DatedRecord) : List (ℕ × ℕ) :=
  ((expenses.map (fun exp => monthOf exp.date)) ++
    (incomes.map (fun inc => monthOf inc.date)) ++
    (savings.map (fun sav => monthOf sav.date))).dedup

/-- Bucket initialisation: zero totals, the shared fixed-expense monthly
equivalent, no savings balance, zero net flow. -/
def initBuckets (months : List (ℕ × ℕ)) (fixed : ℚ) (currentMonth : ℕ × ℕ) :
    List MonthData :=
  months.map (fun m =>
    { month := m
      totalIncome := 0
      totalExpenses := 0
      fixedExpensesMonthly := fixed
      savingsBalance := none
      netFlow := 0
      isCurrentMonth := m == currentMonth })

/-- One step of the income-aggregation loop: the bucket keyed by the income's
month accumulates the amount (bucket months are pairwise distinct, so the
keyed `Map` update is the update of every bucket carrying that month). -/
def addIncomeToBuckets (buckets : List MonthData) (inc : DatedRecord) :
    List MonthData :=
  buckets.map (fun b =>
    if b.month = monthOf inc.date then
      { b with totalIncome := b.totalIncome + inc.amount }
    else b)

/-- One step of the expense-aggregation loop, mirroring `addIncomeToBuckets`. -/
def addExpenseToBuckets (buckets : List MonthData) (exp : DatedRecord) :
    List MonthData :=
  buckets.map (fun b =>
    if b.month = monthOf exp.date then
      { b with totalExpenses := b.totalExpenses + exp.amount }
    else b)

/-- The source sorts a month's savings descending by date (JS `sort` is
stable) and takes element 0: the first record in list order among those with
the maximal date. This fold keeps the incumbent on date ties, computing
exactly that element. -/
def latestSaving (savings : List DatedRecord) : Option DatedRecord :=
  savings.foldl
    (fun acc sav =>
      match acc with
      | none => some sav
      | some best => if best.date.beforeDay sav.date then some sav else some best)
    none

/-- Write each month's latest savings balance into its bucket (the source
iterates the by-month grouping; per distinct bucket month that is one write
of the latest record among that month's savings). -/
def setSavingsBalances (buckets : List MonthData) (savings : List DatedRecord) :
    List MonthData :=
  buckets.map (fun b =>
    match latestSaving (savings.filter (fun sav => monthOf sav.date = b.month)) with
    | some sav => { b with savingsBalance := some sav.amount }
    | none => b)

/-- `data.netFlow = data.totalIncome - data.totalExpenses - data.fixedExpensesMonthly`. -/
def computeNetFlow (buckets : List MonthData) : List MonthData :=
  buckets.map (fun b =>
    { b with netFlow := b.totalIncome - b.totalExpenses - b.fixedExpensesMonthly })

/-- The source's bucket comparator: the current month first, then months
descending. -/
def monthOrder (a b : MonthData) : Bool :=
  if a.isCurrentMonth && !b.isCurrentMonth then true
  else if !a.isCurrentMonth && b.isCurrentMonth then false
  else monthLE b.month a.month

/-- `monthlyData` with predictions off: seed a bucket per appearing month,
aggregate incomes then expenses, write latest savings balances, compute net
flow, and sort. The source's comparator sort (JS `sort`, stable) is rendered
as the stable `insertionSort`; a stable sort's output is unique, so this is
the source's output order. -/
def monthlyData (expenses incomes savings : List DatedRecord)
    (fixedExpenses : List FixedExpense) (currentMonth : ℕ × ℕ) : List MonthData :=
  List.insertionSort (fun a b => monthOrder a b = true)
    (computeNetFlow
      (setSavingsBalances
        (expenses.foldl addExpenseToBuckets
          (incomes.foldl addIncomeToBuckets
            (initBuckets (allMonths expenses incomes savings)
              (fixedExpensesMonthly fixedExpenses) currentMonth)))
        savings))

/-- Reference quantity for the claims: the direct sum of the amounts of the
records whose date falls in month `m`. -/
def sumAmountsInMonth (records : List DatedRecord) (m : ℕ × ℕ) : ℚ :=
  ((records.filter (fun r => monthOf r.date = m)).map (fun r => r.amount)).sum

/-! ## Goal–target synchronizer (`ExpenseTracker.tsx` `updateTarget`,
`addSaving`) -/

/-- `FinancialTarget.type`. -/
inductive TargetType
  | income
  | expense
  | savings
deriving DecidableEq, Repr

/-- `FinancialTarget.period`. -/
inductive TargetPeriod
  | weekly
  | monthly
  | quarterly
  | yearly
deriving DecidableEq, Repr

/-- `FinancialTarget` record; `createdAt`/`updatedAt` timestamps are ℕ. -/
structure FinancialTarget where
  id : ℕ
  type : TargetType
  amount : ℚ
  currency : Currency
  period : TargetPeriod
  createdAt : ℕ
  updatedAt : ℕ
deriving DecidableEq, Repr

/-- `Saving.savingType`: an observed balance or a desired (goal) value. -/
inductive SavingType
  | balance
  | goal
deriving DecidableEq, Repr

/-- `Saving` record (optional note/review fields dropped; amount in NTD). -/
structure Saving where
  id : ℕ
  date : Date
  amount : ℚ
  savingType : SavingType
deriving DecidableEq, Repr

/-- The target-list upsert inside `updateTarget`: `findIndex` over
(type, period, currency), replacing the first match's amount and `updatedAt`,
appending a fresh target when none matches — rendered as structural recursion
(first match updated in place, otherwise recurse; the empty case appends). -/
def updateTargetList (ty : TargetType) (period : TargetPeriod) (targetCurrency : Currency)
    (amount : ℚ) (now freshTargetId : ℕ) : List FinancialTarget → List FinancialTarget
  | [] =>
      [{ id := freshTargetId, type := ty, amount := amount, currency := targetCurrency
         period := period, createdAt := now, updatedAt := now }]
  | t :: ts =>
      if t.type = ty ∧ t.period = period ∧ t.currency = targetCurrency then
        { t with amount := amount, updatedAt := now } :: ts
      else
        t :: updateTargetList ty period targetCurrency amount now freshTargetId ts

/-- `savings.filter(goal).sort(by date desc)[0]` (stable sort): the first
record in list order among the goal-type savings with the maximal date,
rendered as a fold that keeps the incumbent on ties. -/
def latestGoalSaving (savings : List Saving) : Option Saving :=
  (savings.filter (fun s => s.savingType = .goal)).foldl
    (fun acc s =>
      match acc with
      | none => some s
      | some best => if best.date.beforeDay s.date then some s else some best)
    none

/-- The tracker state the synchronizer touches. -/
structure TrackerState where
  savings : List Saving
  targets : List FinancialTarget
deriving DecidableEq, Repr

/-- `updateTarget(type, amount, period, targetCurrency, skipSavingSync)`:
upsert the matching target; when the target is a savings target and the skip
flag is off, additionally convert the amount to NTD and write it into the
most-recently-dated goal saving, or create a fresh goal saving dated today. -/
def updateTarget (st : TrackerState) (ty : TargetType) (amount : ℚ)
    (period : TargetPeriod) (targetCurrency : Currency) (skipSavingSync : Bool)
    (today : Date) (now freshTargetId freshSavingId : ℕ) : TrackerState :=
  let targets := updateTargetList ty period targetCurrency amount now freshTargetId st.targets
  let savings :=
    if ty = .savings ∧ skipSavingSync = false then
      let amountInNTD := convertToNTD amount targetCurrency
      match latestGoalSaving st.savings with
      | some latestGoal =>
          st.savings.map (fun s =>
            if s.id = latestGoal.id then { s with amount := amountInNTD } else s)
      | none =>
          { id := freshSavingId, date := today, amount := amountInNTD,
            savingType := SavingType.goal } :: st.savings
    else st.savings
  { savings := savings, targets := targets }

/-- `addSaving`: prepend the new saving; if it is a goal saving, convert its
NTD amount to the active display currency and upsert the monthly savings
target for that currency with the reverse sync suppressed (`skipSavingSync =
true`). -/
def addSaving (st : TrackerState) (date : Date) (amount : ℚ)
    (savingType : SavingType) (currency : Currency) (today : Date)
    (now freshTargetId freshSavingId newSavingId : ℕ) : TrackerState :=
  let newSaving : Saving :=
    { id := newSavingId, date := date, amount := amount, savingType := savingType }
  let st1 : TrackerState := { savings := newSaving :: st.savings, targets := st.targets }
  if savingType = .goal then
    updateTarget st1 .savings (convertFromNTD amount currency) .monthly currency true
      today now freshTargetId freshSavingId
  else st1

/-- The composite key of the savings target the synchronizer maintains. -/
def isSavingsTargetFor (c : Currency) (t : FinancialTarget) : Bool :=
  decide (t.type = TargetType.savings ∧ t.period = TargetPeriod.monthly ∧ t.currency = c)

/-- The general find-or-create key of `updateTarget`: (type, period, currency). -/
def isTargetKey (ty : TargetType) (period : TargetPeriod) (c : Currency)
    (t : FinancialTarget) : Bool :=
  decide (t.type = ty ∧ t.period = period ∧ t.currency = c)

/-! ## Trend projector (`CombinedChart` `chartData`) -/

/-- `Math.round`: round half away from zero upward, i.e. `⌊q + 1/2⌋`. -/
def jsRound (q : ℚ) : ℤ := ⌊q + 1 / 2⌋

/-- `dailyExpenses[d] || 0`: the summed amount of the records dated `d`. -/
def dailySum (records : List DatedAmount) (d : ℤ) : ℚ :=
  ((records.filter (fun r => r.date = d)).map (fun r => r.amount)).sum

/-- The distinct dates appearing in any of the three record lists (the union
of the grouping keys), ascending (`Array.from(set).sort()`). -/
def sortedDates (expenses incomes savings : List DatedAmount) : List ℤ :=
  List.insertionSort (fun a b => a ≤ b)
    (((expenses.map (fun e => e.date)) ++
      (incomes.map (fun i => i.date)) ++
      (savings.map (fun s => s.date))).dedup)

/-- The chart's cumulative loop: running sum of the per-date expense totals
over all sorted dates; its final value is the projection's base. -/
def lastCumulativeExpense (expenses incomes savings : List DatedAmount) : ℚ :=
  (sortedDates expenses incomes savings).foldl
    (fun cum d => cum + dailySum expenses d) 0

/-- `Object.keys(dailyExpenses).filter(d => d <= today)`: distinct expense
dates on/before today. -/
def pastExpenseDates (expenses : List DatedAmount) (today : ℤ) : List ℤ :=
  ((expenses.map (fun e => e.date)).dedup).filter (fun d => d ≤ today)

/-- `avgDailyExpense`: the sum of the on-or-before-today expense amounts over
the inclusive day span of the past expense dates, clamped to ≥ 1 day
(`sort()[0]` is the minimum, `sort().reverse()[0]` the maximum, and
`Math.ceil((last-first)/86400000) + 1` is exactly `last - first + 1` on whole
days); `0` when no past expense exists. -/
def avgDailyExpense (expenses : List DatedAmount) (today : ℤ) : ℚ :=
  match (pastExpenseDates expenses today).min?, (pastExpenseDates expenses today).max? with
  | some first, some last =>
      (((expenses.filter (fun e => e.date ≤ today)).map (fun e => e.amount)).sum) /
        ((max 1 (last - first + 1) : ℤ) : ℚ)
  | _, _ => 0

/-- `avgDailyIncome`: the same formula, computed from the incomes. -/
def avgDailyIncome (incomes : List DatedAmount) (today : ℤ) : ℚ :=
  match (pastExpenseDates incomes today).min?, (pastExpenseDates incomes today).max? with
  | some first, some last =>
      (((incomes.filter (fun i => i.date ≤ today)).map (fun i => i.amount)).sum) /
        ((max 1 (last - first + 1) : ℤ) : ℚ)
  | _, _ => 0

/-- Projected expense point `i` days ahead:
`Math.round(lastCumulativeExpense + avgDailyExpense * i)`. -/
def projectedExpense (expenses incomes savings : List DatedAmount) (today : ℤ)
    (i : ℕ) : ℤ :=
  jsRound (lastCumulativeExpense expenses incomes savings +
    avgDailyExpense expenses today * (i : ℚ))

/-! ## Flow decomposition (`SankeyFlowChart` `sankeyData`, overview level) -/

/-- An expense as the sankey reads it: id (for goal linkage) and amount. -/
structure SankeyExpense where
  id : ℕ
  amount : ℚ
deriving DecidableEq, Repr

/-- A goal as the sankey reads it: completion, title emptiness, and the
optional linked expense id. -/
structure SankeyGoal where
  id : ℕ
  title : String
  completed : Bool
  linkedExpenseId : Option ℕ
deriving DecidableEq, Repr

/-- One sankey edge. -/
structure SankeyLink where
  source : String
  target : String
  value : ℚ
deriving DecidableEq, Repr

/-- `totalIncome`: sum of all income amounts. -/
def sankeyTotalIncome (incomes : List ℚ) : ℚ := incomes.sum

/-- `totalSavings`: sum of the balance-type saving amounts. -/
def sankeyTotalSavings (savings : List Saving) : ℚ :=
  ((savings.filter (fun s => s.savingType = .balance)).map (fun s => s.amount)).sum

/-- `activeGoals`: goals that are not completed and have a nonempty title. -/
def activeGoals (goals : List SankeyGoal) : List SankeyGoal :=
  goals.filter (fun g => !g.completed && decide (g.title ≠ ""))

/-- `goalExpenseTotal`: total of the expenses some goal links to. -/
def goalExpenseTotal (expenses : List SankeyExpense) (goals : List SankeyGoal) : ℚ :=
  ((expenses.filter (fun e =>
      goals.any (fun g => decide (g.linkedExpenseId = some e.id)))).map
    (fun e => e.amount)).sum

/-- The overview-level links: income splits into a savings flow
(`min(totalSavings, totalIncome * 0.3)`) and the remainder to expenses; a
goals flow of `min(totalSavings * 0.4, activeGoals.length * 1000)` when both
are positive; and the goal-linked expense total from goals to expenses when
positive. -/
def sankeyOverviewLinks (expenses : List SankeyExpense) (incomes : List ℚ)
    (savings : List Saving) (goals : List SankeyGoal) : List SankeyLink :=
  let totalIncome := sankeyTotalIncome incomes
  let totalSavings := sankeyTotalSavings savings
  let savingsFlow := min totalSavings (totalIncome * (3 / 10))
  (if 0 < totalIncome then
      [{ source := "income", target := "savings", value := savingsFlow },
       { source := "income", target := "expenses", value := totalIncome - savingsFlow }]
    else []) ++
  (if 0 < totalSavings ∧ 0 < (activeGoals goals).length then
      [{ source := "savings", target := "goals",
         value := min (totalSavings * (4 / 10)) (((activeGoals goals).length : ℚ) * 1000) }]
    else []) ++
  (if 0 < goalExpenseTotal expenses goals then
      [{ source := "goals", target := "expenses", value := goalExpenseTotal expenses goals }]
    else [])

/-- Look up the value of the edge from `src` to `tgt`. -/
def findLink (links : List SankeyLink) (src tgt : String) : Option ℚ :=
  (links.find? (fun l => l.source == src && l.target == tgt)).map (fun l => l.value)

/-- Closed form of the monthly-summary bucket for month `m` (derived; proven
equal to the aggregation pipeline's output in `buckets_char`). -/
def bucketFor (expenses incomes savings : List DatedRecord) (fixed : ℚ)
    (currentMonth : ℕ × ℕ) (m : ℕ × ℕ) : MonthData :=
  { month := m
    totalIncome := sumAmountsInMonth incomes m
    totalExpenses := sumAmountsInMonth expenses m
    fixedExpensesMonthly := fixed
    savingsBalance :=
      (latestSaving (savings.filter (fun sav => monthOf sav.date = m))).map
        (fun sav => sav.amount)
    netFlow := sumAmountsInMonth incomes m - sumAmountsInMonth expenses m - fixed
    isCurrentMonth := m == currentMonth }

/-! ## Lemmas: monthly summary -/

theorem MonthData.set_totalIncome_self (b : MonthData) :
    { b with totalIncome := b.totalIncome } = b := rfl

theorem MonthData.set_totalExpenses_self (b : MonthData) :
    { b with totalExpenses := b.totalExpenses } = b := rfl

theorem foldl_addIncome_char (incomes : List DatedRecord) (buckets : List MonthData) :
    incomes.foldl addIncomeToBuckets buckets =
      buckets.map (fun b =>
        { b with totalIncome := b.totalIncome + sumAmountsInMonth incomes b.month }) := by
  induction incomes generalizing buckets with
  | nil =>
      simp [sumAmountsInMonth, MonthData.set_totalIncome_self]
  | cons inc incs ih =>
      rw [List.foldl_cons, ih]
      unfold addIncomeToBuckets
      rw [List.map_map]
      refine List.map_congr_left (fun b _ => ?_)
      by_cases h : b.month = monthOf inc.date
      · have hs : sumAmountsInMonth (inc :: incs) b.month =
            inc.amount + sumAmountsInMonth incs b.month := by
          simp [sumAmountsInMonth, List.filter_cons, h]
        simp [Function.comp, if_pos h, hs, add_assoc]
      · have hs : sumAmountsInMonth (inc :: incs) b.month =
            sumAmountsInMonth incs b.month := by
          have hne : ¬(monthOf inc.date = b.month) := fun hh => h (Eq.symm hh)
          simp [sumAmountsInMonth, List.filter_cons, hne]
        simp [Function.comp, if_neg h, hs]

theorem foldl_addExpense_char (expenses : List DatedRecord) (buckets : List MonthData) :
    expenses.foldl addExpenseToBuckets buckets =
      buckets.map (fun b =>
        { b with totalExpenses := b.totalExpenses + sumAmountsInMonth expenses b.month }) := by
  induction expenses generalizing buckets with
  | nil =>
      simp [sumAmountsInMonth, MonthData.set_totalExpenses_self]
  | cons exp exps ih =>
      rw [List.foldl_cons, ih]
      unfold addExpenseToBuckets
      rw [List.map_map]
      refine List.map_congr_left (fun b _ => ?_)
      by_cases h : b.month = monthOf exp.date
      · have hs : sumAmountsInMonth (exp :: exps) b.month =
            exp.amount + sumAmountsInMonth exps b.month := by
          simp [sumAmountsInMonth, List.filter_cons, h]
        simp [Function.comp, if_pos h, hs, add_assoc]
      · have hs : sumAmountsInMonth (exp :: exps) b.month =
            sumAmountsInMonth exps b.month := by
          have hne : ¬(monthOf exp.date = b.month) := fun hh => h (Eq.symm hh)
          simp [sumAmountsInMonth, List.filter_cons, hne]
        simp [Function.comp, if_neg h, hs]

theorem buckets_char (expenses incomes savings : List DatedRecord)
    (months : List (ℕ × ℕ)) (fixed : ℚ) (currentMonth : ℕ × ℕ) :
    computeNetFlow
        (setSavingsBalances
          (expenses.foldl addExpenseToBuckets
            (incomes.foldl addIncomeToBuckets (initBuckets months fixed currentMonth)))
          savings) =
      months.map (bucketFor expenses incomes savings fixed currentMonth) := by
  rw [foldl_addIncome_char, foldl_addExpense_char]
  unfold initBuckets setSavingsBalances computeNetFlow
  rw [List.map_map, List.map_map, List.map_map, List.map_map]
  refine List.map_congr_left (fun m _ => ?_)
  simp only [Function.comp_apply, zero_add, bucketFor]
  cases latestSaving (savings.filter (fun sav => monthOf sav.date = m)) <;> simp

theorem monthlyData_perm (expenses incomes savings : List DatedRecord)
    (fixedExpenses : List FixedExpense) (currentMonth : ℕ × ℕ) :
    (monthlyData expenses incomes savings fixedExpenses currentMonth).Perm
      ((allMonths expenses incomes savings).map
        (bucketFor expenses incomes savings (fixedExpensesMonthly fixedExpenses)
          currentMonth)) := by
  unfold monthlyData
  rw [buckets_char]
  exact List.perm_insertionSort _ _

theorem countP_dedup_eq_one {α : Type} [DecidableEq α] (l : List α) (m : α)
    (hm : m ∈ l) :
    l.dedup.countP (fun x => decide (x = m)) = 1 := by
  have h1 : l.dedup.countP (fun x => decide (x = m)) = List.count m l.dedup := by
    rw [List.count_eq_countP]
    rfl
  rw [h1, List.count_dedup, if_pos hm]

/-- C3: every month appearing in any of the three record lists appears exactly
once among the monthly-summary buckets; each bucket's income and expense
figures are the direct sums of the amounts of that month's records; and every
bucket carries the same fixed-expense figure, the sum of monthly equivalents
of the active fixed expenses. -/
theorem monthlySummary_complete (expenses incomes savings : List DatedRecord)
    (fixedExpenses : List FixedExpense) (currentMonth : ℕ × ℕ) :
    (∀ m : ℕ × ℕ,
      (m ∈ expenses.map (fun r => monthOf r.date) ∨
        m ∈ incomes.map (fun r => monthOf r.date) ∨
        m ∈ savings.map (fun r => monthOf r.date)) →
      (monthlyData expenses incomes savings fixedExpenses currentMonth).countP
        (fun b => decide (b.month = m)) = 1) ∧
    (∀ b ∈ monthlyData expenses incomes savings fixedExpenses currentMonth,
      b.totalIncome = sumAmountsInMonth incomes b.month ∧
      b.totalExpenses = sumAmountsInMonth expenses b.month ∧
      b.fixedExpensesMonthly = fixedExpensesMonthly fixedExpenses) := by
  have hperm := monthlyData_perm expenses incomes savings fixedExpenses currentMonth
  constructor
  · intro m hm
    rw [hperm.countP_eq]
    rw [List.countP_map]
    have hfun : ((fun b => decide (b.month = m)) ∘
        bucketFor expenses incomes savings (fixedExpensesMonthly fixedExpenses)
          currentMonth) =
        (fun x => decide (x = m)) := rfl
    rw [hfun]
    refine countP_dedup_eq_one _ m ?_
    rcases hm with h | h | h <;> simp [h]
  · intro b hb
    obtain ⟨m, _, rfl⟩ := List.mem_map.mp (hperm.mem_iff.mp hb)
    exact ⟨rfl, rfl, rfl⟩

theorem monthlyData_example_eval :
    monthlyData [⟨⟨2026, 1, 5⟩, 1000⟩] [⟨⟨2026, 1, 10⟩, 5000⟩]
      [⟨⟨2026, 1, 31⟩, 20000⟩]
      [{ id := 0, description := "rent", amount := 3000, frequency := .monthly,
         isActive := true }] (2026, 2) =
    [{ month := (2026, 1), totalIncome := 5000, totalExpenses := 1000,
       fixedExpensesMonthly := 3000, savingsBalance := some 20000,
       netFlow := 1000, isCurrentMonth := false }] := by
  norm_num [monthlyData, allMonths, monthOf, initBuckets, addIncomeToBuckets,
    addExpenseToBuckets, setSavingsBalances, latestSaving, computeNetFlow,
    monthOrder, monthLE, List.filter_cons, fixedExpensesMonthly,
    getMonthlyEquivalent]

theorem monthlySummary_complete_witness :
    ((monthlyData [⟨⟨2026, 1, 5⟩, 1000⟩] [⟨⟨2026, 1, 10⟩, 5000⟩]
        [⟨⟨2026, 1, 31⟩, 20000⟩]
        [{ id := 0, description := "rent", amount := 3000, frequency := .monthly,
           isActive := true }] (2026, 2)).countP
      (fun b => decide (b.month = (2026, 1))) = 1) ∧
    (({ month := (2026, 1), totalIncome := 5000, totalExpenses := 1000,
        fixedExpensesMonthly := 3000, savingsBalance := some 20000,
        netFlow := 1000, isCurrentMonth := false } : MonthData).totalIncome =
      sumAmountsInMonth [⟨⟨2026, 1, 10⟩, 5000⟩] (2026, 1)) :=
  ⟨(monthlySummary_complete [⟨⟨2026, 1, 5⟩, 1000⟩] [⟨⟨2026, 1, 10⟩, 5000⟩]
      [⟨⟨2026, 1, 31⟩, 20000⟩]
      [{ id := 0, description := "rent", amount := 3000, frequency := .monthly,
         isActive := true }] (2026, 2)).1 (2026, 1) (Or.inl (by decide)),
   ((monthlySummary_complete [⟨⟨2026, 1, 5⟩, 1000⟩] [⟨⟨2026, 1, 10⟩, 5000⟩]
      [⟨⟨2026, 1, 31⟩, 20000⟩]
      [{ id := 0, description := "rent", amount := 3000, frequency := .monthly,
         isActive := true }] (2026, 2)).2 _
      (by rw [monthlyData_example_eval]; exact List.mem_singleton_self _)).1⟩

/-- C4: in the monthly summary every bucket's net flow equals income minus
expenses minus the fixed-expense monthly figure, while the period-filtered
tracker total computes net cash flow as incomes minus expenses with no
fixed-expense term — two distinct formulas at their two call sites. -/
theorem netFlow_formulas (expenses incomes savings : List DatedRecord)
    (fixedExpenses : List FixedExpense) (currentMonth : ℕ × ℕ) :
    (∀ b ∈ monthlyData expenses incomes savings fixedExpenses currentMonth,
      b.netFlow = b.totalIncome - b.totalExpenses - b.fixedExpensesMonthly) ∧
    (∀ (trackerExpenses trackerIncomes : List DatedAmount)
      (selectedPeriod : Option TimePeriod),
      netCashFlow trackerExpenses trackerIncomes selectedPeriod =
        totalIncomes trackerIncomes selectedPeriod -
          totalExpenses trackerExpenses selectedPeriod) := by
  have hperm := monthlyData_perm expenses incomes savings fixedExpenses currentMonth
  constructor
  · intro b hb
    obtain ⟨m, _, rfl⟩ := List.mem_map.mp (hperm.mem_iff.mp hb)
    rfl
  · intro _ _ _
    rfl

theorem netFlow_formulas_witness :
    ({ month := (2026, 1), totalIncome := 5000, totalExpenses := 1000,
       fixedExpensesMonthly := 3000, savingsBalance := some 20000,
       netFlow := 1000, isCurrentMonth := false } : MonthData).netFlow =
      ({ month := (2026, 1), totalIncome := 5000, totalExpenses := 1000,
         fixedExpensesMonthly := 3000, savingsBalance := some 20000,
         netFlow := 1000, isCurrentMonth := false } : MonthData).totalIncome -
        ({ month := (2026, 1), totalIncome := 5000, totalExpenses := 1000,
           fixedExpensesMonthly := 3000, savingsBalance := some 20000,
           netFlow := 1000, isCurrentMonth := false } : MonthData).totalExpenses -
        ({ month := (2026, 1), totalIncome := 5000, totalExpenses := 1000,
           fixedExpensesMonthly := 3000, savingsBalance := some 20000,
           netFlow := 1000, isCurrentMonth := false } : MonthData).fixedExpensesMonthly :=
  (netFlow_formulas [⟨⟨2026, 1, 5⟩, 1000⟩] [⟨⟨2026, 1, 10⟩, 5000⟩]
    [⟨⟨2026, 1, 31⟩, 20000⟩]
    [{ id := 0, description := "rent", amount := 3000, frequency := .monthly,
       isActive := true }] (2026, 2)).1 _
    (by rw [monthlyData_example_eval]; exact List.mem_singleton_self _)

/-! ## Theorems: frequency conversion, time filter, currency round trip -/

/-- C5: the fixed-expense monthly equivalent is weekly ×4.33, monthly
unchanged, quarterly ÷3, yearly ÷12; 1200 yearly gives 100 and 100 weekly
gives 433.0; and inactive fixed expenses contribute nothing to the aggregated
fixed total. -/
theorem frequency_conversion_spec :
    (∀ a : ℚ, getMonthlyEquivalent a .weekly = a * (433 / 100) ∧
      getMonthlyEquivalent a .monthly = a ∧
      getMonthlyEquivalent a .quarterly = a / 3 ∧
      getMonthlyEquivalent a .yearly = a / 12) ∧
    getMonthlyEquivalent 1200 .yearly = 100 ∧
    getMonthlyEquivalent 100 .weekly = 433 ∧
    (∀ (fixedExpenses : List FixedExpense) (e : FixedExpense),
      e.isActive = false →
      fixedExpensesMonthly (e :: fixedExpenses) = fixedExpensesMonthly fixedExpenses) := by
  refine ⟨fun a => ⟨rfl, rfl, rfl, rfl⟩, by norm_num [getMonthlyEquivalent],
    by norm_num [getMonthlyEquivalent], ?_⟩
  intro fixedExpenses e he
  unfold fixedExpensesMonthly
  rw [List.filter_cons]
  simp [he]

theorem frequency_conversion_spec_witness :
    fixedExpensesMonthly
      ({ id := 1, description := "gym", amount := 50, frequency := .monthly,
         isActive := false } ::
        [{ id := 0, description := "rent", amount := 1200, frequency := .yearly,
           isActive := true }]) =
      fixedExpensesMonthly
        [{ id := 0, description := "rent", amount := 1200, frequency := .yearly,
           isActive := true }] :=
  frequency_conversion_spec.2.2.2 _ _ rfl

/-- C6: the time filter accepts a date exactly when it lies between the
period's inclusive start and end, and accepts every date when no period is
selected. -/
theorem isDateInPeriod_spec :
    (∀ (d s e : ℤ),
      (isDateInPeriod d (some { startDate := s, endDate := e }) = true ↔
        s ≤ d ∧ d ≤ e)) ∧
    (∀ d : ℤ, isDateInPeriod d none = true) := by
  constructor
  · intro d s e
    simp [isDateInPeriod]
  · intro d
    rfl

theorem isDateInPeriod_spec_witness :
    isDateInPeriod 5 (some { startDate := 1, endDate := 9 }) = true :=
  (isDateInPeriod_spec.1 5 1 9).mpr (by decide)

/-- C8 counterexample: converting 1000 from USD to the NTD base and back
yields 1000.06 USD — the deviation of 0.06 is a rate-table mismatch, not
floating-point rounding, so the round trip is not the identity up to
floating-point tolerance. -/
theorem currency_roundTrip_counterexample :
    convertFromNTD (convertToNTD 1000 .USD) .USD = 100006 / 100 ∧
    ¬(|convertFromNTD (convertToNTD 1000 .USD) .USD - 1000| ≤ 1 / 1000) := by
  constructor
  · norm_num [convertFromNTD, convertToNTD, TO_NTD_RATES, EXCHANGE_RATES]
  · norm_num [convertFromNTD, convertToNTD, TO_NTD_RATES, EXCHANGE_RATES, abs_le]

/-- C8 (amended): the round trip multiplies the amount by the fixed constant
`TO_NTD_RATES[c] * EXCHANGE_RATES[c]` (1 for NTD, 1.00006 for USD, 1.00018
for CAD): it is the exact identity for NTD and agrees with the original
amount within 0.018% relative tolerance for every currency, but the USD/CAD
deviation comes from rate tables that are not exact inverses, far above
floating-point rounding. -/
theorem currency_roundTrip_amended :
    (∀ (c : Currency) (a : ℚ),
      convertFromNTD (convertToNTD a c) c = TO_NTD_RATES c * EXCHANGE_RATES c * a ∧
      |convertFromNTD (convertToNTD a c) c - a| ≤ (18 / 100000) * |a|) ∧
    (∀ a : ℚ, convertFromNTD (convertToNTD a .NTD) .NTD = a) ∧
    convertFromNTD (convertToNTD 1 .USD) .USD = 100006 / 100000 ∧
    convertFromNTD (convertToNTD 1 .CAD) .CAD = 100018 / 100000 := by
  refine ⟨?_, ?_, by norm_num [convertFromNTD, convertToNTD, TO_NTD_RATES, EXCHANGE_RATES],
    by norm_num [convertFromNTD, convertToNTD, TO_NTD_RATES, EXCHANGE_RATES]⟩
  · intro c a
    constructor
    · cases c <;> simp [convertFromNTD, convertToNTD, TO_NTD_RATES, EXCHANGE_RATES] <;> ring
    · have hk : convertFromNTD (convertToNTD a c) c - a =
          (TO_NTD_RATES c * EXCHANGE_RATES c - 1) * a := by
        cases c <;> simp [convertFromNTD, convertToNTD, TO_NTD_RATES, EXCHANGE_RATES] <;> ring
      rw [hk, abs_mul]
      have hb : |TO_NTD_RATES c * EXCHANGE_RATES c - 1| ≤ 18 / 100000 := by
        cases c <;> norm_num [TO_NTD_RATES, EXCHANGE_RATES, abs_le]
      exact mul_le_mul_of_nonneg_right hb (abs_nonneg a)
  · intro a
    simp [convertFromNTD, convertToNTD, TO_NTD_RATES, EXCHANGE_RATES]

/-! ## Lemmas: goal–target synchronizer -/

theorem beforeDay_irrefl (a : Date) : a.beforeDay a = false := by
  simp [Date.beforeDay]

theorem beforeDay_notle_trans {x y z : Date} (h1 : x.beforeDay y = false)
    (h2 : y.beforeDay z = false) : x.beforeDay z = false := by
  simp only [Date.beforeDay, Bool.or_eq_false_iff, Bool.and_eq_false_iff,
    decide_eq_false_iff_not, Bool.or_eq_false_iff] at *
  omega

theorem beforeDay_of_lt_ge {b s g : Date} (h1 : b.beforeDay s = true)
    (h2 : g.beforeDay s = false) : g.beforeDay b = false := by
  simp only [Date.beforeDay, Bool.or_eq_true, Bool.and_eq_true,
    decide_eq_true_eq, Bool.or_eq_false_iff, Bool.and_eq_false_iff,
    decide_eq_false_iff_not] at *
  omega

theorem foldl_latest_invariant (l : List Saving) (b : Saving) :
    ∃ g, l.foldl
        (fun acc s =>
          match acc with
          | none => some s
          | some best => if best.date.beforeDay s.date then some s else some best)
        (some b) = some g ∧
      (g = b ∨ g ∈ l) ∧ g.date.beforeDay b.date = false ∧
      ∀ s ∈ l, g.date.beforeDay s.date = false := by
  induction l generalizing b with
  | nil =>
      exact ⟨b, rfl, Or.inl rfl, beforeDay_irrefl b.date, by simp⟩
  | cons s l ih =>
      rw [List.foldl_cons]
      cases hbs : b.date.beforeDay s.date with
      | true =>
          obtain ⟨g, hfold, hmem, hgs, hall⟩ := ih s
          refine ⟨g, by simp [hbs, hfold], ?_, ?_, ?_⟩
          · rcases hmem with h | h
            · exact Or.inr (by simp [h])
            · exact Or.inr (by simp [h])
          · exact beforeDay_of_lt_ge hbs hgs
          · intro x hx
            rcases List.mem_cons.mp hx with h | h
            · exact h ▸ hgs
            · exact hall x h
      | false =>
          obtain ⟨g, hfold, hmem, hgb, hall⟩ := ih b
          refine ⟨g, by simp [hbs, hfold], ?_, hgb, ?_⟩
          · rcases hmem with h | h
            · exact Or.inl h
            · exact Or.inr (by simp [h])
          · intro x hx
            rcases List.mem_cons.mp hx with h | h
            · exact h ▸ beforeDay_notle_trans hgb hbs
            · exact hall x h

theorem latestGoalSaving_spec (savings : List Saving) :
    (latestGoalSaving savings = none → ∀ s ∈ savings, s.savingType ≠ .goal) ∧
    (∀ g, latestGoalSaving savings = some g →
      g ∈ savings ∧ g.savingType = .goal ∧
      ∀ s ∈ savings, s.savingType = .goal → g.date.beforeDay s.date = false) := by
  unfold latestGoalSaving
  cases hf : savings.filter (fun s => s.savingType = .goal) with
  | nil =>
      constructor
      · intro _ s hs hgoal
        have : s ∈ savings.filter (fun s => s.savingType = .goal) :=
          List.mem_filter.mpr ⟨hs, by simp [hgoal]⟩
        rw [hf] at this
        exact absurd this (List.not_mem_nil s)
      · intro g hg
        simp at hg
  | cons s0 rest =>
      obtain ⟨g, hfold, hmem, hgs0, hall⟩ := foldl_latest_invariant rest s0
      rw [List.foldl_cons]
      constructor
      · intro hnone
        rw [show (List.foldl _ (some s0) rest : Option Saving) = some g from hfold] at hnone
        exact absurd hnone (by simp)
      · intro g2 hg2
        rw [show (List.foldl _ (some s0) rest : Option Saving) = some g from hfold] at hg2
        have hg : g = g2 := by injection hg2
        subst hg
        have hgmem : g ∈ savings.filter (fun s => s.savingType = .goal) := by
          rw [hf]
          rcases hmem with h | h
          · simp [h]
          · simp [h]
        have hgprop := List.mem_filter.mp hgmem
        refine ⟨hgprop.1, by simpa using hgprop.2, ?_⟩
        intro s hs hgoal
        have hsf : s ∈ savings.filter (fun s => s.savingType = .goal) :=
          List.mem_filter.mpr ⟨hs, by simp [hgoal]⟩
        rw [hf] at hsf
        rcases List.mem_cons.mp hsf with h | h
        · exact h ▸ hgs0
        · exact hall s h

theorem updateTargetList_countP (ty : TargetType) (period : TargetPeriod)
    (c : Currency) (amount : ℚ) (now freshTargetId : ℕ) (ts : List FinancialTarget)
    (h : ts.countP (isTargetKey ty period c) ≤ 1) :
    (updateTargetList ty period c amount now freshTargetId ts).countP
      (isTargetKey ty period c) = 1 := by
  induction ts with
  | nil =>
      simp [updateTargetList, isTargetKey]
  | cons t ts ih =>
      rw [updateTargetList]
      by_cases hkey : t.type = ty ∧ t.period = period ∧ t.currency = c
      · rw [if_pos hkey]
        have hkt : isTargetKey ty period c t = true := by
          simpa [isTargetKey] using hkey
        have hcnt : ts.countP (isTargetKey ty period c) = 0 := by
          rw [List.countP_cons, hkt] at h
          simp only [eq_self_iff_true, if_true] at h
          omega
        rw [List.countP_cons, hcnt]
        simp [isTargetKey, hkey.1, hkey.2.1, hkey.2.2]
      · rw [if_neg hkey]
        rw [List.countP_cons] at h ⊢
        have hkf : isTargetKey ty period c t = false := by
          simp [isTargetKey]
          intro h1 h2
          intro h3
          exact hkey ⟨h1, h2, h3⟩
        rw [hkf] at h ⊢
        simp only [Bool.false_eq_true, if_false, add_zero] at h ⊢
        exact ih h

theorem updateTargetList_filter_not (ty : TargetType) (period : TargetPeriod)
    (c : Currency) (amount : ℚ) (now freshTargetId : ℕ) (ts : List FinancialTarget) :
    (updateTargetList ty period c amount now freshTargetId ts).filter
      (fun t => !(isTargetKey ty period c t)) =
    ts.filter (fun t => !(isTargetKey ty period c t)) := by
  induction ts with
  | nil =>
      simp [updateTargetList, isTargetKey]
  | cons t ts ih =>
      rw [updateTargetList]
      by_cases hkey : t.type = ty ∧ t.period = period ∧ t.currency = c
      · rw [if_pos hkey]
        rw [List.filter_cons, List.filter_cons]
        have h1 : (isTargetKey ty period c
            { t with amount := amount, updatedAt := now }) = true := by
          simp [isTargetKey, hkey.1, hkey.2.1, hkey.2.2]
        have h2 : isTargetKey ty period c t = true := by
          simp [isTargetKey, hkey.1, hkey.2.1, hkey.2.2]
        simp [h1, h2]
      · rw [if_neg hkey]
        rw [List.filter_cons, List.filter_cons]
        have h2 : isTargetKey ty period c t = false := by
          simp [isTargetKey]
          intro h1 h3
          intro h4
          exact hkey ⟨h1, h3, h4⟩
        simp [h2, ih]

theorem updateTargetList_amount (ty : TargetType) (period : TargetPeriod)
    (c : Currency) (amount : ℚ) (now freshTargetId : ℕ) (ts : List FinancialTarget)
    (h : ts.countP (isTargetKey ty period c) ≤ 1) :
    ∀ t ∈ updateTargetList ty period c amount now freshTargetId ts,
      isTargetKey ty period c t = true → t.amount = amount := by
  induction ts with
  | nil =>
      intro t ht _
      rw [updateTargetList] at ht
      rcases List.mem_cons.mp ht with h1 | h1
      · rw [h1]
      · exact absurd h1 (List.not_mem_nil t)
  | cons t0 ts ih =>
      intro t ht hkeyt
      rw [updateTargetList] at ht
      by_cases hkey : t0.type = ty ∧ t0.period = period ∧ t0.currency = c
      · rw [if_pos hkey] at ht
        have hkt : isTargetKey ty period c t0 = true := by
          simpa [isTargetKey] using hkey
        have hcnt : ts.countP (isTargetKey ty period c) = 0 := by
          rw [List.countP_cons, hkt] at h
          simp only [eq_self_iff_true, if_true] at h
          omega
        rcases List.mem_cons.mp ht with h1 | h1
        · rw [h1]
        · exact absurd hkeyt (by
            have := List.countP_eq_zero.mp hcnt t h1
            simp [this])
      · rw [if_neg hkey] at ht
        rcases List.mem_cons.mp ht with h1 | h1
        · exfalso
          apply hkey
          rw [h1] at hkeyt
          simpa [isTargetKey] using hkeyt
        · refine ih ?_ t h1 hkeyt
          rw [List.countP_cons] at h
          omega

/-- C1: when the uniqueness invariant (at most one target per composite key)
holds, creating a goal-type Saving of amount X (NTD) under active display
currency C prepends exactly that one record to the savings list — no other
Saving record is touched, so the target write triggers no update cycle — and
performs exactly one upsert of the monthly savings target in currency C,
leaving afterwards exactly one such target whose amount is the equivalent of
X in C, with every other target unchanged. -/
theorem addSaving_goal_sync (st : TrackerState) (d : Date) (amountX : ℚ)
    (c : Currency) (today : Date) (now freshTargetId freshSavingId newSavingId : ℕ)
    (hkey : st.targets.countP (isSavingsTargetFor c) ≤ 1) :
    (addSaving st d amountX .goal c today now freshTargetId freshSavingId
        newSavingId).savings =
      { id := newSavingId, date := d, amount := amountX,
        savingType := SavingType.goal } :: st.savings ∧
    (addSaving st d amountX .goal c today now freshTargetId freshSavingId
        newSavingId).targets.countP (isSavingsTargetFor c) = 1 ∧
    (∀ t ∈ (addSaving st d amountX .goal c today now freshTargetId freshSavingId
        newSavingId).targets,
      isSavingsTargetFor c t = true → t.amount = convertFromNTD amountX c) ∧
    (addSaving st d amountX .goal c today now freshTargetId freshSavingId
        newSavingId).targets.filter (fun t => !(isSavingsTargetFor c t)) =
      st.targets.filter (fun t => !(isSavingsTargetFor c t)) := by
  have hsame : isSavingsTargetFor c = isTargetKey .savings .monthly c := rfl
  have hred : addSaving st d amountX .goal c today now freshTargetId freshSavingId
      newSavingId =
      { savings := ({ id := newSavingId, date := d, amount := amountX,
                      savingType := SavingType.goal } :: st.savings),
        targets := updateTargetList .savings .monthly c (convertFromNTD amountX c)
          now freshTargetId st.targets } := by
    simp [addSaving, updateTarget]
  rw [hred, hsame]
  rw [hsame] at hkey
  exact ⟨rfl, updateTargetList_countP _ _ _ _ _ _ _ hkey,
    updateTargetList_amount _ _ _ _ _ _ _ hkey,
    updateTargetList_filter_not _ _ _ _ _ _ _⟩

theorem addSaving_goal_sync_witness :
    (addSaving { savings := [], targets := [] } ⟨2026, 1, 10⟩ 500 .goal .USD
        ⟨2026, 1, 12⟩ 7 100 101 102).savings =
      { id := 102, date := ⟨2026, 1, 10⟩, amount := 500,
        savingType := SavingType.goal } ::
        ({ savings := [], targets := [] } : TrackerState).savings ∧
    (addSaving { savings := [], targets := [] } ⟨2026, 1, 10⟩ 500 .goal .USD
        ⟨2026, 1, 12⟩ 7 100 101 102).targets.countP (isSavingsTargetFor .USD) = 1 :=
  ⟨(addSaving_goal_sync { savings := [], targets := [] } ⟨2026, 1, 10⟩ 500 .USD
      ⟨2026, 1, 12⟩ 7 100 101 102 (by decide)).1,
   (addSaving_goal_sync { savings := [], targets := [] } ⟨2026, 1, 10⟩ 500 .USD
      ⟨2026, 1, 12⟩ 7 100 101 102 (by decide)).2.1⟩

/-- C2: editing or creating the savings target without the skip flag converts
the new target amount to the NTD base; when a goal-type Saving exists it
rewrites the amount of the most-recently-dated one (a member, goal-typed, of
maximal date) to that base-currency value, otherwise it prepends a fresh
goal-type Saving dated today with that value; and the target list is exactly
the single find-or-create upsert in both cases — the saving-side write adds
no further target write. -/
theorem updateTarget_savings_sync (st : TrackerState) (amountX : ℚ)
    (period : TargetPeriod) (c : Currency) (today : Date)
    (now freshTargetId freshSavingId : ℕ)
    (hkey : st.targets.countP (isTargetKey .savings period c) ≤ 1) :
    ((∃ g, latestGoalSaving st.savings = some g ∧ g ∈ st.savings ∧
        g.savingType = .goal ∧
        (∀ s ∈ st.savings, s.savingType = .goal → g.date.beforeDay s.date = false) ∧
        (updateTarget st .savings amountX period c false today now freshTargetId
            freshSavingId).savings =
          st.savings.map (fun s =>
            if s.id = g.id then { s with amount := convertToNTD amountX c } else s)) ∨
      ((∀ s ∈ st.savings, s.savingType ≠ .goal) ∧
        (updateTarget st .savings amountX period c false today now freshTargetId
            freshSavingId).savings =
          { id := freshSavingId, date := today, amount := convertToNTD amountX c,
            savingType := SavingType.goal } :: st.savings)) ∧
    ((updateTarget st .savings amountX period c false today now freshTargetId
        freshSavingId).targets.countP (isTargetKey .savings period c) = 1 ∧
      (∀ t ∈ (updateTarget st .savings amountX period c false today now freshTargetId
          freshSavingId).targets,
        isTargetKey .savings period c t = true → t.amount = amountX) ∧
      (updateTarget st .savings amountX period c false today now freshTargetId
          freshSavingId).targets.filter (fun t => !(isTargetKey .savings period c t)) =
        st.targets.filter (fun t => !(isTargetKey .savings period c t))) := by
  have hspec := latestGoalSaving_spec st.savings
  constructor
  · cases hl : latestGoalSaving st.savings with
    | some g =>
        obtain ⟨hmem, hgoal, hmax⟩ := hspec.2 g hl
        exact Or.inl ⟨g, rfl, hmem, hgoal, hmax, by simp [updateTarget, hl]⟩
    | none =>
        refine Or.inr ⟨hspec.1 hl, by simp [updateTarget, hl]⟩
  · refine ⟨updateTargetList_countP _ _ _ _ _ _ _ hkey,
      updateTargetList_amount _ _ _ _ _ _ _ hkey,
      updateTargetList_filter_not _ _ _ _ _ _ _⟩

theorem updateTarget_savings_sync_witness :
    (updateTarget
        { savings := [{ id := 1, date := ⟨2026, 1, 1⟩, amount := 100,
                        savingType := SavingType.goal }], targets := [] }
        .savings 200 .monthly .NTD false ⟨2026, 2, 2⟩ 9 50 51).targets.countP
      (isTargetKey .savings .monthly .NTD) = 1 :=
  (updateTarget_savings_sync
    { savings := [{ id := 1, date := ⟨2026, 1, 1⟩, amount := 100,
                    savingType := SavingType.goal }], targets := [] }
    200 .monthly .NTD ⟨2026, 2, 2⟩ 9 50 51 (by decide)).2.1

/-! ## Lemmas: trend projector -/

theorem foldl_add_eq_sum {α : Type} (f : α → ℚ) (l : List α) (a : ℚ) :
    l.foldl (fun sum x => sum + f x) a = a + (l.map f).sum := by
  induction l generalizing a with
  | nil => simp
  | cons x xs ih => simp [List.foldl_cons, ih, add_assoc]

theorem sum_filter_split {α : Type} (p : α → Bool) (f : α → ℚ) (l : List α) :
    ((l.filter p).map f).sum + ((l.filter (fun x => !p x)).map f).sum =
      (l.map f).sum := by
  induction l with
  | nil => simp
  | cons x xs ih =>
      cases hp : p x with
      | true =>
          simp only [List.filter_cons, hp, Bool.not_true, if_true, if_false,
            List.map_cons, List.sum_cons, Bool.false_eq_true]
          rw [add_assoc, ih]
      | false =>
          simp only [List.filter_cons, hp, Bool.not_false, if_true, if_false,
            List.map_cons, List.sum_cons, Bool.false_eq_true]
          rw [add_comm (((List.filter p xs).map f).sum), add_assoc,
            add_comm (((List.filter (fun x => !p x) xs).map f).sum), ih]

theorem sum_fiberwise (ds : List ℤ) (es : List DatedAmount) (hnd : ds.Nodup)
    (hcov : ∀ e ∈ es, e.date ∈ ds) :
    (ds.map (dailySum es)).sum = (es.map (fun e => e.amount)).sum := by
  induction ds generalizing es with
  | nil =>
      cases es with
      | nil => simp
      | cons e es =>
          exact absurd (hcov e (List.mem_cons_self e es)) (List.not_mem_nil e.date)
  | cons d ds ih =>
      have hdn : d ∉ ds := (List.nodup_cons.mp hnd).1
      have hfib : ∀ d2 ∈ ds, dailySum es d2 =
          dailySum (es.filter (fun e => !(decide (e.date = d)))) d2 := by
        intro d2 hd2
        have hne : d2 ≠ d := fun h => hdn (h ▸ hd2)
        unfold dailySum
        rw [List.filter_filter]
        refine congrArg _ (congrArg _ (List.filter_congr fun e _ => ?_).symm)
        cases he : decide (e.date = d2) with
        | true =>
            have he2 : e.date = d2 := of_decide_eq_true he
            simp [he2, hne]
        | false => simp [he]
      have hmap : (ds.map (dailySum es)).sum =
          (ds.map (dailySum (es.filter (fun e => !(decide (e.date = d)))))).sum :=
        congrArg _ (List.map_congr_left hfib)
      have hcov2 : ∀ e ∈ es.filter (fun e => !(decide (e.date = d))), e.date ∈ ds := by
        intro e he
        have h1 := List.mem_filter.mp he
        have h2 := hcov e h1.1
        rcases List.mem_cons.mp h2 with h3 | h3
        · exfalso
          have h4 := h1.2
          simp [h3] at h4
        · exact h3
      rw [List.map_cons, List.sum_cons, hmap,
        ih (es.filter (fun e => !(decide (e.date = d)))) (List.nodup_cons.mp hnd).2 hcov2]
      show dailySum es d + _ = _
      unfold dailySum
      exact sum_filter_split (fun e => decide (e.date = d)) (fun e => e.amount) es

theorem lastCumulativeExpense_eq (expenses incomes savings : List DatedAmount) :
    lastCumulativeExpense expenses incomes savings =
      (expenses.map (fun e => e.amount)).sum := by
  unfold lastCumulativeExpense
  rw [foldl_add_eq_sum (dailySum expenses) (sortedDates expenses incomes savings) 0,
    zero_add]
  have hperm := List.perm_insertionSort (fun a b : ℤ => a ≤ b)
    (((expenses.map (fun e => e.date)) ++
      (incomes.map (fun i => i.date)) ++
      (savings.map (fun s => s.date))).dedup)
  refine sum_fiberwise _ _ (hperm.nodup_iff.mpr (List.nodup_dedup _)) ?_
  intro e he
  show e.date ∈ sortedDates expenses incomes savings
  unfold sortedDates
  rw [hperm.mem_iff, List.mem_dedup]
  refine List.mem_append.mpr (Or.inl (List.mem_append.mpr (Or.inl ?_)))
  exact List.mem_map.mpr ⟨e, he, rfl⟩

theorem min?_eq_some_iff_int {a : ℤ} {xs : List ℤ} :
    xs.min? = some a ↔ a ∈ xs ∧ ∀ b ∈ xs, a ≤ b :=
  @List.min?_eq_some_iff ℤ a _ _ ⟨fun h1 h2 => le_antisymm h1 h2⟩
    (fun _ => le_refl _) (fun x y => min_choice x y) (fun _ _ _ => le_min_iff) xs

theorem max?_eq_some_iff_int {a : ℤ} {xs : List ℤ} :
    xs.max? = some a ↔ a ∈ xs ∧ ∀ b ∈ xs, b ≤ a :=
  @List.max?_eq_some_iff ℤ a _ _ ⟨fun h1 h2 => le_antisymm h1 h2⟩
    (fun _ => le_refl _) (fun x y => max_choice x y) (fun _ _ _ => max_le_iff) xs

/-- C7: the average daily expense rate is the sum of on-or-before-today
expense amounts divided by the inclusive day span from the earliest to the
latest past-or-today expense date, clamped to at least one day; income uses
the very same formula; each projected point adds rate × i to the cumulative
total and rounds to the nearest integer; and in the concrete scenario of two
consecutive days totalling 200 ending on day 2, the 1-day-ahead projection is
300. -/
theorem trend_projection_spec :
    (∀ (expenses : List DatedAmount) (today first last : ℤ),
      first ∈ expenses.map (fun e => e.date) → first ≤ today →
      last ∈ expenses.map (fun e => e.date) → last ≤ today →
      (∀ e ∈ expenses, e.date ≤ today → first ≤ e.date ∧ e.date ≤ last) →
      avgDailyExpense expenses today =
        ((expenses.filter (fun e => e.date ≤ today)).map (fun e => e.amount)).sum /
          ((max 1 (last - first + 1) : ℤ) : ℚ)) ∧
    (∀ (records : List DatedAmount) (today : ℤ),
      avgDailyIncome records today = avgDailyExpense records today) ∧
    (∀ (expenses incomes savings : List DatedAmount) (today : ℤ) (i : ℕ),
      projectedExpense expenses incomes savings today i =
        jsRound ((expenses.map (fun e => e.amount)).sum +
          avgDailyExpense expenses today * (i : ℚ))) ∧
    projectedExpense [⟨1, 100⟩, ⟨2, 100⟩] [] [] 2 1 = 300 := by
  have havg : ∀ (expenses : List DatedAmount) (today first last : ℤ),
      first ∈ expenses.map (fun e => e.date) → first ≤ today →
      last ∈ expenses.map (fun e => e.date) → last ≤ today →
      (∀ e ∈ expenses, e.date ≤ today → first ≤ e.date ∧ e.date ≤ last) →
      avgDailyExpense expenses today =
        ((expenses.filter (fun e => e.date ≤ today)).map (fun e => e.amount)).sum /
          ((max 1 (last - first + 1) : ℤ) : ℚ) := by
    intro expenses today first last hf hft hl hlt hbound
    have hmin : (pastExpenseDates expenses today).min? = some first := by
      rw [min?_eq_some_iff_int]
      constructor
      · exact List.mem_filter.mpr ⟨List.mem_dedup.mpr hf, by simpa using hft⟩
      · intro b hb
        have hb2 := List.mem_filter.mp hb
        obtain ⟨e, he, hed⟩ := List.mem_map.mp (List.mem_dedup.mp hb2.1)
        exact hed ▸ (hbound e he (hed ▸ (by simpa using hb2.2))).1
    have hmax : (pastExpenseDates expenses today).max? = some last := by
      rw [max?_eq_some_iff_int]
      constructor
      · exact List.mem_filter.mpr ⟨List.mem_dedup.mpr hl, by simpa using hlt⟩
      · intro b hb
        have hb2 := List.mem_filter.mp hb
        obtain ⟨e, he, hed⟩ := List.mem_map.mp (List.mem_dedup.mp hb2.1)
        exact hed ▸ (hbound e he (hed ▸ (by simpa using hb2.2))).2
    unfold avgDailyExpense
    rw [hmin, hmax]
  refine ⟨havg, fun _ _ => rfl, ?_, ?_⟩
  · intro expenses incomes savings today i
    unfold projectedExpense
    rw [lastCumulativeExpense_eq]
  · have h1 : avgDailyExpense [⟨1, 100⟩, ⟨2, 100⟩] 2 = 100 := by
      rw [havg [⟨1, 100⟩, ⟨2, 100⟩] 2 1 2 (by norm_num) (by norm_num)
        (by norm_num) (by norm_num) ?_]
      · norm_num [List.filter_cons]
      · intro e he
        fin_cases he <;> norm_num
    unfold projectedExpense
    rw [h1, lastCumulativeExpense_eq]
    norm_num [jsRound]

theorem trend_projection_spec_witness :
    avgDailyExpense [⟨1, 100⟩, ⟨2, 100⟩] 2 =
      ((([⟨1, 100⟩, ⟨2, 100⟩] : List DatedAmount).filter
          (fun e => e.date ≤ 2)).map (fun e => e.amount)).sum /
        ((max 1 ((2 : ℤ) - 1 + 1) : ℤ) : ℚ) :=
  trend_projection_spec.1 [⟨1, 100⟩, ⟨2, 100⟩] 2 1 2 (by norm_num) (by norm_num)
    (by norm_num) (by norm_num) (by intro e he; fin_cases he <;> norm_num)

theorem dedup_filter_comm (p : ℤ → Bool) (l : List ℤ) :
    (l.filter p).dedup = l.dedup.filter p := by
  induction l with
  | nil => rfl
  | cons a l ih =>
      by_cases hm : a ∈ l
      · rw [List.dedup_cons_of_mem hm]
        cases hp : p a with
        | true =>
            have hmf : a ∈ l.filter p := List.mem_filter.mpr ⟨hm, hp⟩
            rw [List.filter_cons, hp]
            simp only [if_true]
            rw [List.dedup_cons_of_mem hmf]
            exact ih
        | false =>
            rw [List.filter_cons, hp]
            simp only [Bool.false_eq_true, if_false]
            exact ih
      · rw [List.dedup_cons_of_not_mem hm]
        cases hp : p a with
        | true =>
            have hmf : a ∉ l.filter p := fun h => hm (List.mem_filter.mp h).1
            rw [List.filter_cons, hp]
            simp only [if_true]
            rw [List.dedup_cons_of_not_mem hmf, List.filter_cons, hp]
            simp only [if_true]
            rw [ih]
        | false =>
            rw [List.filter_cons, hp]
            simp only [Bool.false_eq_true, if_false]
            rw [ih, List.filter_cons, hp]
            simp only [Bool.false_eq_true, if_false]

theorem filter_self_idem (p : DatedAmount → Bool) (l : List DatedAmount) :
    (l.filter p).filter p = l.filter p := by
  rw [List.filter_filter]
  exact List.filter_congr (fun x _ => by cases hx : p x <;> simp [hx])

theorem pastExpenseDates_filter (expenses : List DatedAmount) (today : ℤ) :
    pastExpenseDates (expenses.filter (fun e => e.date ≤ today)) today =
      pastExpenseDates expenses today := by
  unfold pastExpenseDates
  have h1 : (expenses.filter (fun e => decide (e.date ≤ today))).map (fun e => e.date) =
      (expenses.map (fun e => e.date)).filter (fun d => decide (d ≤ today)) := by
    rw [List.filter_map]
    rfl
  rw [h1, dedup_filter_comm]
  rw [List.filter_filter]
  exact List.filter_congr (fun x _ => by cases hx : decide (x ≤ today) <;> simp [hx])

/-- C10: every projected expense point is the rounded sum of ALL expense
amounts — future-dated records included — plus the average daily rate times
the horizon step, while that average itself is computed only from the records
dated on or before today: future-dated entries shift the projection's base
but never its slope. -/
theorem projection_includes_future (expenses incomes savings : List DatedAmount)
    (today : ℤ) (i : ℕ) :
    (projectedExpense expenses incomes savings today i =
      jsRound ((expenses.map (fun e => e.amount)).sum +
        avgDailyExpense expenses today * (i : ℚ))) ∧
    (avgDailyExpense (expenses.filter (fun e => e.date ≤ today)) today =
      avgDailyExpense expenses today) := by
  constructor
  · unfold projectedExpense
    rw [lastCumulativeExpense_eq]
  · unfold avgDailyExpense
    rw [pastExpenseDates_filter]
    rw [filter_self_idem]

/-! ## Theorems: flow decomposition -/

/-- C9: in the overview flow decomposition, with positive total income the
income→savings edge carries min(total balance-type savings, 0.3 × total
income) and the income→expenses edge the remainder of income; with positive
savings and at least one active goal the savings→goals edge carries min(0.4 ×
total savings, number of active goals × 1000); and when positive, the
goals→expenses edge carries the total of goal-linked expenses. -/
theorem sankey_overview_spec (expenses : List SankeyExpense) (incomes : List ℚ)
    (savings : List Saving) (goals : List SankeyGoal) :
    (0 < sankeyTotalIncome incomes →
      findLink (sankeyOverviewLinks expenses incomes savings goals) "income" "savings" =
        some (min (sankeyTotalSavings savings) (sankeyTotalIncome incomes * (3 / 10))) ∧
      findLink (sankeyOverviewLinks expenses incomes savings goals) "income" "expenses" =
        some (sankeyTotalIncome incomes -
          min (sankeyTotalSavings savings) (sankeyTotalIncome incomes * (3 / 10)))) ∧
    (0 < sankeyTotalSavings savings → 0 < (activeGoals goals).length →
      findLink (sankeyOverviewLinks expenses incomes savings goals) "savings" "goals" =
        some (min (sankeyTotalSavings savings * (4 / 10))
          (((activeGoals goals).length : ℚ) * 1000))) ∧
    (0 < goalExpenseTotal expenses goals →
      findLink (sankeyOverviewLinks expenses incomes savings goals) "goals" "expenses" =
        some (goalExpenseTotal expenses goals)) := by
  refine ⟨?_, ?_, ?_⟩
  · intro hti
    simp only [sankeyOverviewLinks, findLink]
    rw [if_pos hti]
    by_cases h2 : 0 < sankeyTotalSavings savings ∧ 0 < (activeGoals goals).length <;>
      by_cases h3 : 0 < goalExpenseTotal expenses goals <;>
        simp [h2, h3, List.find?]
  · intro hs hg
    simp only [sankeyOverviewLinks, findLink]
    rw [if_pos (And.intro hs hg)]
    by_cases h1 : 0 < sankeyTotalIncome incomes <;>
      by_cases h3 : 0 < goalExpenseTotal expenses goals <;>
        simp [h1, h3, List.find?]
  · intro hge
    simp only [sankeyOverviewLinks, findLink]
    rw [if_pos hge]
    by_cases h1 : 0 < sankeyTotalIncome incomes <;>
      by_cases h2 : 0 < sankeyTotalSavings savings ∧ 0 < (activeGoals goals).length <;>
        simp [h1, h2, List.find?]

theorem sankey_overview_spec_witness :
    (findLink (sankeyOverviewLinks [⟨1, 50⟩] [1000]
        [⟨3, ⟨2026, 1, 1⟩, 200, .balance⟩] [⟨7, "gym", false, some 1⟩])
        "income" "savings" =
      some (min (sankeyTotalSavings [⟨3, ⟨2026, 1, 1⟩, 200, .balance⟩])
        (sankeyTotalIncome [1000] * (3 / 10)))) ∧
    (findLink (sankeyOverviewLinks [⟨1, 50⟩] [1000]
        [⟨3, ⟨2026, 1, 1⟩, 200, .balance⟩] [⟨7, "gym", false, some 1⟩])
        "savings" "goals" =
      some (min (sankeyTotalSavings [⟨3, ⟨2026, 1, 1⟩, 200, .balance⟩] * (4 / 10))
        (((activeGoals [⟨7, "gym", false, some 1⟩]).length : ℚ) * 1000))) ∧
    (findLink (sankeyOverviewLinks [⟨1, 50⟩] [1000]
        [⟨3, ⟨2026, 1, 1⟩, 200, .balance⟩] [⟨7, "gym", false, some 1⟩])
        "goals" "expenses" =
      some (goalExpenseTotal [⟨1, 50⟩] [⟨7, "gym", false, some 1⟩])) :=
  ⟨((sankey_overview_spec [⟨1, 50⟩] [1000] [⟨3, ⟨2026, 1, 1⟩, 200, .balance⟩]
      [⟨7, "gym", false, some 1⟩]).1 (by norm_num [sankeyTotalIncome])).1,
   (sankey_overview_spec [⟨1, 50⟩] [1000] [⟨3, ⟨2026, 1, 1⟩, 200, .balance⟩]
      [⟨7, "gym", false, some 1⟩]).2.1
      (by norm_num [sankeyTotalSavings]) (by decide),
   (sankey_overview_spec [⟨1, 50⟩] [1000] [⟨3, ⟨2026, 1, 1⟩, 200, .balance⟩]
      [⟨7, "gym", false, some 1⟩]).2.2 (by norm_num [goalExpenseTotal])⟩

end ExpenseLog
